import Mathlib

/-!
Shallow embedding of the TBM shield-friction calculation core from
`fric.py`: the soil and machine parameter bundles and the seven-step
stress/friction pipeline, together with theorems checking the
specification's claims against the code.

Floating-point arithmetic in the source is modelled over the real
numbers; `math.tan`, `math.sqrt`, `math.pi` and `math.radians` become
`Real.tan`, `Real.sqrt`, `Real.pi` and multiplication by `π / 180`.
The method dispatch in `calculate_horizontal_stress` is on string
values, exactly as in the source; a Python function that falls off the
end of its `if`/`elif` chain returns `None`, which is modelled by an
`Option` result.
-/

noncomputable section

/-- Soil parameter bundle (`SoilProperties` in the source); the
friction angle field holds radians. -/
structure SoilProperties where
  density : ℝ
  cohesion : ℝ
  friction_angle : ℝ
  k0 : ℝ

/-- The source constructor of `SoilProperties`: it receives the
friction angle in degrees and stores `math.radians(friction_angle)`,
that is `friction_angle * π / 180`. -/
def SoilProperties.init (density cohesion friction_angle k0 : ℝ) : SoilProperties :=
  { density := density
    cohesion := cohesion
    friction_angle := friction_angle * Real.pi / 180
    k0 := k0 }

/-- TBM geometry and load bundle (`TBMProperties` in the source); all
four fields are stored verbatim. -/
structure TBMProperties where
  diameter : ℝ
  length : ℝ
  weight : ℝ
  face_pressure : ℝ

/-- `calculate_vertical_stress`: `σv = ρ · g · h` with `g = 9.81`. -/
def calculate_vertical_stress (depth : ℝ) (soil_properties : SoilProperties) : ℝ :=
  soil_properties.density * 9.81 * depth

/-- `calculate_horizontal_stress`: dispatch on the method string.
The source has no `else` branch, so an unrecognized method makes the
Python function return `None`; this is the `none` case here. -/
def calculate_horizontal_stress (vertical_stress : ℝ) (soil_properties : SoilProperties)
    (method : String) : Option ℝ :=
  if method = "At Rest" then
    some (soil_properties.k0 * vertical_stress)
  else if method = "Active" then
    let ka := Real.tan (Real.pi / 4 - soil_properties.friction_angle / 2) ^ 2
    some (ka * vertical_stress - 2 * soil_properties.cohesion * Real.sqrt ka)
  else if method = "Passive" then
    let kp := Real.tan (Real.pi / 4 + soil_properties.friction_angle / 2) ^ 2
    some (kp * vertical_stress + 2 * soil_properties.cohesion * Real.sqrt kp)
  else
    none

/-- `calculate_pore_pressure`: hydrostatic pressure below the water
table, zero otherwise. -/
def calculate_pore_pressure (depth water_table_depth : ℝ) : ℝ :=
  if depth > water_table_depth then 1000 * 9.81 * (depth - water_table_depth) else 0

/-- `calculate_effective_stress`: `σ' = σ − u`. -/
def calculate_effective_stress (total_stress pore_pressure : ℝ) : ℝ :=
  total_stress - pore_pressure

/-- `calculate_shield_surface_area`: `A = π · D · L`. -/
def calculate_shield_surface_area (tbm_properties : TBMProperties) : ℝ :=
  Real.pi * tbm_properties.diameter * tbm_properties.length

/-- `calculate_normal_force`: `N = (σ' + Pf) · A`. -/
def calculate_normal_force (effective_stress : ℝ) (tbm_properties : TBMProperties) : ℝ :=
  (effective_stress + tbm_properties.face_pressure) * calculate_shield_surface_area tbm_properties

/-- `calculate_shield_friction`: `Ff = μ · N`. -/
def calculate_shield_friction (normal_force friction_coefficient : ℝ) : ℝ :=
  friction_coefficient * normal_force

/-- `calculate_total_resistance`: `R = Ff + W`. -/
def calculate_total_resistance (shield_friction : ℝ) (tbm_properties : TBMProperties) : ℝ :=
  shield_friction + tbm_properties.weight

/-- The result record returned by `calculate_all_stresses` (the
source returns a dict with exactly these seven keys). -/
structure CalculationResult where
  vertical_stress : ℝ
  horizontal_stress : ℝ
  pore_pressure : ℝ
  effective_stress : ℝ
  normal_force : ℝ
  shield_friction : ℝ
  total_resistance : ℝ

/-- `calculate_all_stresses`: the pipeline in the source's fixed
order.  `calculate_horizontal_stress` is the only step that can be
undefined (unknown method), so the whole run is defined exactly when
it is. -/
def calculate_all_stresses (soil_properties : SoilProperties) (tbm_properties : TBMProperties)
    (depth water_table_depth friction_coefficient : ℝ)
    (stress_calculation_method : String) : Option CalculationResult :=
  let vertical_stress := calculate_vertical_stress depth soil_properties
  (calculate_horizontal_stress vertical_stress soil_properties stress_calculation_method).map
    fun horizontal_stress =>
      let pore_pressure := calculate_pore_pressure depth water_table_depth
      let effective_stress := calculate_effective_stress horizontal_stress pore_pressure
      let normal_force := calculate_normal_force effective_stress tbm_properties
      let shield_friction := calculate_shield_friction normal_force friction_coefficient
      let total_resistance := calculate_total_resistance shield_friction tbm_properties
      { vertical_stress := vertical_stress
        horizontal_stress := horizontal_stress
        pore_pressure := pore_pressure
        effective_stress := effective_stress
        normal_force := normal_force
        shield_friction := shield_friction
        total_resistance := total_resistance }

/-- The default dashboard soil values of the spec's end-to-end
scenario. -/
def defaultSoil : SoilProperties := SoilProperties.init 1800 5000 30 0.5

/-- The default dashboard TBM values of the spec's end-to-end
scenario. -/
def defaultTBM : TBMProperties :=
  { diameter := 6, length := 10, weight := 5000000, face_pressure := 200000 }

/-- The exact result of the end-to-end scenario with the default
dashboard values and the at-rest method. -/
def defaultResult : CalculationResult :=
  { vertical_stress := 176580
    horizontal_stress := 88290
    pore_pressure := 49050
    effective_stress := 39240
    normal_force := 14354400 * Real.pi
    shield_friction := 4306320 * Real.pi
    total_resistance := 4306320 * Real.pi + 5000000 }

/-- Alternative soil bundle (same density as `defaultSoil`, all other
soil inputs changed) used to exercise input-independence. -/
def altSoil : SoilProperties := SoilProperties.init 1800 0 0 1

/-- Alternative TBM bundle (all machine inputs changed) used to
exercise input-independence. -/
def altTBM : TBMProperties := { diameter := 1, length := 1, weight := 0, face_pressure := 0 }

/-- The exact result of a run with `altSoil`, `altTBM`, the passive
method and friction coefficient 0.5 at the default depths. -/
def altResult : CalculationResult :=
  { vertical_stress := 176580
    horizontal_stress := 176580
    pore_pressure := 49050
    effective_stress := 127530
    normal_force := 127530 * Real.pi
    shield_friction := 63765 * Real.pi
    total_resistance := 63765 * Real.pi }

/-! ### Helper lemmas about the three recognized methods -/

theorem horizontal_stress_at_rest (v : ℝ) (s : SoilProperties) :
    calculate_horizontal_stress v s "At Rest" = some (s.k0 * v) := rfl

theorem horizontal_stress_active (v : ℝ) (s : SoilProperties) :
    calculate_horizontal_stress v s "Active" =
      some (Real.tan (Real.pi / 4 - s.friction_angle / 2) ^ 2 * v
        - 2 * s.cohesion * Real.sqrt (Real.tan (Real.pi / 4 - s.friction_angle / 2) ^ 2)) := rfl

theorem horizontal_stress_passive (v : ℝ) (s : SoilProperties) :
    calculate_horizontal_stress v s "Passive" =
      some (Real.tan (Real.pi / 4 + s.friction_angle / 2) ^ 2 * v
        + 2 * s.cohesion * Real.sqrt (Real.tan (Real.pi / 4 + s.friction_angle / 2) ^ 2)) := rfl

/-- Unfolding of a whole run once the horizontal-stress step is known
to be defined. -/
theorem calculate_all_stresses_eq (s : SoilProperties) (t : TBMProperties)
    (d wt fc : ℝ) (m : String) (h : ℝ)
    (hm : calculate_horizontal_stress (calculate_vertical_stress d s) s m = some h) :
    calculate_all_stresses s t d wt fc m = some
      { vertical_stress := calculate_vertical_stress d s
        horizontal_stress := h
        pore_pressure := calculate_pore_pressure d wt
        effective_stress := h - calculate_pore_pressure d wt
        normal_force := (h - calculate_pore_pressure d wt + t.face_pressure)
          * (Real.pi * t.diameter * t.length)
        shield_friction := fc * ((h - calculate_pore_pressure d wt + t.face_pressure)
          * (Real.pi * t.diameter * t.length))
        total_resistance := fc * ((h - calculate_pore_pressure d wt + t.face_pressure)
          * (Real.pi * t.diameter * t.length)) + t.weight } := by
  simp only [calculate_all_stresses, hm, Option.map_some']
  rfl

/-- Pore pressure at the default scenario depths. -/
theorem pore_pressure_ten_five : calculate_pore_pressure 10 5 = 49050 := by
  rw [calculate_pore_pressure, if_pos (by norm_num)]
  norm_num

/-- The end-to-end default run evaluates to `defaultResult`. -/
theorem default_run_eq :
    calculate_all_stresses defaultSoil defaultTBM 10 5 0.3 "At Rest" = some defaultResult := by
  rw [calculate_all_stresses_eq defaultSoil defaultTBM 10 5 0.3 "At Rest"
    (defaultSoil.k0 * calculate_vertical_stress 10 defaultSoil)
    (horizontal_stress_at_rest _ _)]
  have hv : calculate_vertical_stress 10 defaultSoil = 176580 := by
    rw [calculate_vertical_stress]
    show (1800 : ℝ) * 9.81 * 10 = 176580
    norm_num
  rw [hv, pore_pressure_ten_five]
  show some _ = some defaultResult
  rw [Option.some.injEq, defaultResult]
  have hk : defaultSoil.k0 = 0.5 := rfl
  rw [hk, CalculationResult.mk.injEq]
  refine ⟨?_, ?_, ?_, ?_, ?_, ?_, ?_⟩
  · norm_num
  · norm_num
  · norm_num
  · norm_num
  · show ((0.5 : ℝ) * 176580 - 49050 + defaultTBM.face_pressure)
      * (Real.pi * defaultTBM.diameter * defaultTBM.length) = 14354400 * Real.pi
    show ((0.5 : ℝ) * 176580 - 49050 + 200000) * (Real.pi * 6 * 10) = 14354400 * Real.pi
    ring_nf
  · show (0.3 : ℝ) * (((0.5 : ℝ) * 176580 - 49050 + 200000)
      * (Real.pi * 6 * 10)) = 4306320 * Real.pi
    ring_nf
  · show (0.3 : ℝ) * (((0.5 : ℝ) * 176580 - 49050 + 200000)
      * (Real.pi * 6 * 10)) + defaultTBM.weight = 4306320 * Real.pi + 5000000
    show (0.3 : ℝ) * (((0.5 : ℝ) * 176580 - 49050 + 200000)
      * (Real.pi * 6 * 10)) + 5000000 = 4306320 * Real.pi + 5000000
    ring_nf

/-- The alternative run evaluates to `altResult`. -/
theorem alt_run_eq :
    calculate_all_stresses altSoil altTBM 10 5 0.5 "Passive" = some altResult := by
  have hv : calculate_vertical_stress 10 altSoil = 176580 := by
    show (1800 : ℝ) * 9.81 * 10 = 176580
    norm_num
  have hh : calculate_horizontal_stress (calculate_vertical_stress 10 altSoil) altSoil
      "Passive" = some 176580 := by
    rw [horizontal_stress_passive, hv]
    norm_num [altSoil, SoilProperties.init, Real.tan_pi_div_four, Real.sqrt_one]
  rw [calculate_all_stresses_eq altSoil altTBM 10 5 0.5 "Passive" 176580 hh, hv,
    pore_pressure_ten_five, Option.some.injEq, altResult, CalculationResult.mk.injEq]
  have hfp : altTBM.face_pressure = 0 := rfl
  have hdi : altTBM.diameter = 1 := rfl
  have hle : altTBM.length = 1 := rfl
  have hw : altTBM.weight = 0 := rfl
  rw [hfp, hdi, hle, hw]
  refine ⟨rfl, rfl, rfl, by norm_num, ?_, ?_, ?_⟩
  · ring_nf
  · ring_nf
  · ring_nf

/-! ### Claim theorems -/

/-- Claim C1: the claim says the horizontal-stress step must fail with
a distinguishable InvalidMethod error on an unrecognized method.  The
code instead falls off the `if`/`elif` chain and returns an undefined
value (`None`, here `none`): evaluating the step on the unknown method
string "Invalid" yields `none`, not an error. -/
theorem C1_unknown_method_returns_undefined :
    calculate_horizontal_stress 176580 defaultSoil "Invalid" = none := rfl

/-- Claim C2: the pore-pressure step computes
`u = 1000 · 9.81 · max 0 (h − hw)` — zero at or above the water table
and linear in the submergence below it. -/
theorem C2_pore_pressure_eq_max_formula (h hw : ℝ) :
    calculate_pore_pressure h hw = 1000 * 9.81 * max 0 (h - hw) := by
  rw [calculate_pore_pressure]
  by_cases hc : h > hw
  · rw [if_pos hc, max_eq_right (by linarith)]
  · rw [if_neg hc, max_eq_left (by linarith)]
    norm_num

/-- Claim C3, as stated, is false: at depth 10 with water table 5 we
have `h ≥ waterTableDepth` but the pore pressure is 49050, not 0, and
at depth 3 with water table 5 we have `h < waterTableDepth` but the
pore pressure is 0, not `1000 · 9.81 · (5 − 3)`.  The §8 inequalities
are inverted. -/
theorem C3_counterexample :
    ((10 : ℝ) ≥ 5 ∧ calculate_pore_pressure 10 5 ≠ 0) ∧
      ((3 : ℝ) < 5 ∧ calculate_pore_pressure 3 5 ≠ 1000 * 9.81 * (5 - 3)) := by
  refine ⟨⟨by norm_num, ?_⟩, ⟨by norm_num, ?_⟩⟩
  · rw [pore_pressure_ten_five]
    norm_num
  · rw [calculate_pore_pressure, if_neg (by norm_num)]
    norm_num

/-- Claim C3 amended: for every depth at or above the water table
(`h ≤ hw`) the pore pressure is 0, and for every depth strictly below
it (`h > hw`) the pore pressure is `1000 · 9.81 · (h − hw)`. -/
theorem C3_pore_pressure_cases (h hw : ℝ) :
    (h ≤ hw → calculate_pore_pressure h hw = 0) ∧
      (hw < h → calculate_pore_pressure h hw = 1000 * 9.81 * (h - hw)) := by
  constructor
  · intro hle
    rw [calculate_pore_pressure, if_neg (by linarith)]
  · intro hlt
    rw [calculate_pore_pressure, if_pos hlt]

/-- Witness for C3's amended theorem at depths 3 and 10 against a
water table at 5. -/
theorem C3_pore_pressure_cases_witness :
    calculate_pore_pressure 3 5 = 0 ∧
      calculate_pore_pressure 10 5 = 1000 * 9.81 * (10 - 5) :=
  ⟨(C3_pore_pressure_cases 3 5).1 (by norm_num),
    (C3_pore_pressure_cases 10 5).2 (by norm_num)⟩

/-- Claim C5: the normal force is `(σ' + Pf) · A` where
`A = π · D · L` is the cylindrical lateral area. -/
theorem C5_normal_force_formula (es : ℝ) (t : TBMProperties) :
    calculate_shield_surface_area t = Real.pi * t.diameter * t.length ∧
      calculate_normal_force es t =
        (es + t.face_pressure) * (Real.pi * t.diameter * t.length) :=
  ⟨rfl, rfl⟩

/-- Claim C8: the pore pressure is never negative, whatever the signs
of the depth and the water-table depth. -/
theorem C8_pore_pressure_nonneg (h hw : ℝ) : 0 ≤ calculate_pore_pressure h hw := by
  rw [calculate_pore_pressure]
  by_cases hc : h > hw
  · rw [if_pos hc]
    have : (0 : ℝ) ≤ h - hw := by linarith
    positivity
  · rw [if_neg hc]

/-- Claim C4: every defined pipeline run has
`effectiveStress = horizontalStress − porePressure` (computed from the
horizontal, not the vertical, stress), and the value is not clamped:
there is a run whose effective stress is negative. -/
theorem C4_effective_stress_from_horizontal :
    (∀ (s : SoilProperties) (t : TBMProperties) (d wt fc : ℝ) (m : String)
        (r : CalculationResult),
        calculate_all_stresses s t d wt fc m = some r →
        r.effective_stress = r.horizontal_stress - r.pore_pressure) ∧
      ∃ r : CalculationResult,
        calculate_all_stresses (SoilProperties.init 0 0 0 0) defaultTBM 10 0 0.3 "At Rest" =
          some r ∧ r.effective_stress < 0 := by
  constructor
  · intro s t d wt fc m r hr
    simp only [calculate_all_stresses, Option.map_eq_some'] at hr
    obtain ⟨a, _, rfl⟩ := hr
    rfl
  · refine ⟨_, calculate_all_stresses_eq (SoilProperties.init 0 0 0 0) defaultTBM 10 0 0.3
      "At Rest" _ (horizontal_stress_at_rest _ _), ?_⟩
    have hp : calculate_pore_pressure 10 0 = 98100 := by
      rw [calculate_pore_pressure, if_pos (by norm_num)]
      norm_num
    show (SoilProperties.init 0 0 0 0).k0
        * calculate_vertical_stress 10 (SoilProperties.init 0 0 0 0)
        - calculate_pore_pressure 10 0 < 0
    have hk : (SoilProperties.init 0 0 0 0).k0 = 0 := rfl
    rw [hk, hp, zero_mul]
    norm_num

/-- Witness for C4 at the default scenario: the default run is
defined and its effective stress is its horizontal stress minus its
pore pressure. -/
theorem C4_effective_stress_witness :
    calculate_all_stresses defaultSoil defaultTBM 10 5 0.3 "At Rest" = some defaultResult ∧
      defaultResult.effective_stress =
        defaultResult.horizontal_stress - defaultResult.pore_pressure :=
  ⟨default_run_eq, C4_effective_stress_from_horizontal.1 defaultSoil defaultTBM 10 5 0.3
    "At Rest" defaultResult default_run_eq⟩

/-- Claim C6, as stated, is false in its approximate values: in the
default scenario the normal force exceeds the claimed 45,065,140 N by
more than 30,000 N, the shield friction exceeds the claimed
13,519,542 N by more than 9,000 N, and the total resistance exceeds
the claimed 18,519,542 N by more than 9,000 N. -/
theorem C6_counterexample :
    calculate_all_stresses defaultSoil defaultTBM 10 5 0.3 "At Rest" = some defaultResult ∧
      30000 < defaultResult.normal_force - 45065140 ∧
      9000 < defaultResult.shield_friction - 13519542 ∧
      9000 < defaultResult.total_resistance - 18519542 := by
  refine ⟨default_run_eq, ?_, ?_, ?_⟩
  · show 30000 < 14354400 * Real.pi - 45065140
    linarith [Real.pi_gt_d6]
  · show 9000 < 4306320 * Real.pi - 13519542
    linarith [Real.pi_gt_d6]
  · show 9000 < 4306320 * Real.pi + 5000000 - 18519542
    linarith [Real.pi_gt_d6]

/-- Claim C6 amended: in the default scenario the four stresses are
exactly 176580, 88290, 49050 and 39240 Pa, and the remaining outputs
are `normalForce = 14,354,400·π ≈ 45,095,676 N`,
`shieldFriction = 4,306,320·π ≈ 13,528,703 N` and
`totalResistance = 4,306,320·π + 5,000,000 ≈ 18,528,703 N`. -/
theorem C6_default_scenario :
    calculate_all_stresses defaultSoil defaultTBM 10 5 0.3 "At Rest" = some defaultResult ∧
      45095668 < defaultResult.normal_force ∧ defaultResult.normal_force < 45095683 ∧
      13528700 < defaultResult.shield_friction ∧ defaultResult.shield_friction < 13528705 ∧
      18528700 < defaultResult.total_resistance ∧
      defaultResult.total_resistance < 18528705 := by
  refine ⟨default_run_eq, ?_, ?_, ?_, ?_, ?_, ?_⟩
  · show (45095668 : ℝ) < 14354400 * Real.pi
    linarith [Real.pi_gt_d6]
  · show 14354400 * Real.pi < 45095683
    linarith [Real.pi_lt_d6]
  · show (13528700 : ℝ) < 4306320 * Real.pi
    linarith [Real.pi_gt_d6]
  · show 4306320 * Real.pi < 13528705
    linarith [Real.pi_lt_d6]
  · show (18528700 : ℝ) < 4306320 * Real.pi + 5000000
    linarith [Real.pi_gt_d6]
  · show 4306320 * Real.pi + 5000000 < 18528705
    linarith [Real.pi_lt_d6]

/-- Claim C7: with a zero friction angle both lateral coefficients
are 1, so the active method returns `σv − 2c` and the passive method
returns `σv + 2c`. -/
theorem C7_zero_friction_angle (v density cohesion k0 : ℝ) :
    calculate_horizontal_stress v (SoilProperties.init density cohesion 0 k0) "Active" =
        some (v - 2 * cohesion) ∧
      calculate_horizontal_stress v (SoilProperties.init density cohesion 0 k0) "Passive" =
        some (v + 2 * cohesion) := by
  constructor
  · rw [horizontal_stress_active]
    norm_num [SoilProperties.init, Real.tan_pi_div_four, Real.sqrt_one]
  · rw [horizontal_stress_passive]
    norm_num [SoilProperties.init, Real.tan_pi_div_four, Real.sqrt_one]

/-- Claim C9: with nonnegative density, cohesion and depth and a
friction angle in [0°, 90°), the passive horizontal stress is at
least the active one. -/
theorem C9_passive_ge_active (density cohesion adeg k0 depth : ℝ)
    (hd : 0 ≤ density) (hc : 0 ≤ cohesion) (ha0 : 0 ≤ adeg) (ha90 : adeg < 90)
    (hdep : 0 ≤ depth) (hA hP : ℝ)
    (hAe : calculate_horizontal_stress
        (calculate_vertical_stress depth (SoilProperties.init density cohesion adeg k0))
        (SoilProperties.init density cohesion adeg k0) "Active" = some hA)
    (hPe : calculate_horizontal_stress
        (calculate_vertical_stress depth (SoilProperties.init density cohesion adeg k0))
        (SoilProperties.init density cohesion adeg k0) "Passive" = some hP) :
    hA ≤ hP := by
  rw [horizontal_stress_active, Option.some.injEq] at hAe
  rw [horizontal_stress_passive, Option.some.injEq] at hPe
  subst hAe
  subst hPe
  have hpi := Real.pi_pos
  have hang : (SoilProperties.init density cohesion adeg k0).friction_angle =
      adeg * Real.pi / 180 := rfl
  have hcoh : (SoilProperties.init density cohesion adeg k0).cohesion = cohesion := rfl
  have hphi0 : 0 ≤ adeg * Real.pi / 180 :=
    div_nonneg (mul_nonneg ha0 hpi.le) (by norm_num)
  have hphilt : adeg * Real.pi / 180 < Real.pi / 2 := by
    have h := mul_pos (show (0 : ℝ) < 90 - adeg by linarith) hpi
    nlinarith
  rw [hang, hcoh]
  have ha1 : 0 ≤ Real.pi / 4 - adeg * Real.pi / 180 / 2 := by linarith
  have hb2 : Real.pi / 4 + adeg * Real.pi / 180 / 2 < Real.pi / 2 := by linarith
  have hab : Real.pi / 4 - adeg * Real.pi / 180 / 2 ≤
      Real.pi / 4 + adeg * Real.pi / 180 / 2 := by linarith
  have htana : 0 ≤ Real.tan (Real.pi / 4 - adeg * Real.pi / 180 / 2) :=
    Real.tan_nonneg_of_nonneg_of_le_pi_div_two ha1 (by linarith)
  have htanab : Real.tan (Real.pi / 4 - adeg * Real.pi / 180 / 2) ≤
      Real.tan (Real.pi / 4 + adeg * Real.pi / 180 / 2) := by
    rcases eq_or_lt_of_le hab with heq | hlt
    · rw [heq]
    · exact (Real.tan_lt_tan_of_nonneg_of_lt_pi_div_two ha1 hb2 hlt).le
  have hK : Real.tan (Real.pi / 4 - adeg * Real.pi / 180 / 2) ^ 2 ≤
      Real.tan (Real.pi / 4 + adeg * Real.pi / 180 / 2) ^ 2 :=
    pow_le_pow_left₀ htana htanab 2
  have hv : 0 ≤ calculate_vertical_stress depth (SoilProperties.init density cohesion adeg k0) := by
    show 0 ≤ (SoilProperties.init density cohesion adeg k0).density * 9.81 * depth
    have hdd : (SoilProperties.init density cohesion adeg k0).density = density := rfl
    rw [hdd]
    exact mul_nonneg (mul_nonneg hd (by norm_num)) hdep
  have h1 : Real.tan (Real.pi / 4 - adeg * Real.pi / 180 / 2) ^ 2
        * calculate_vertical_stress depth (SoilProperties.init density cohesion adeg k0) ≤
      Real.tan (Real.pi / 4 + adeg * Real.pi / 180 / 2) ^ 2
        * calculate_vertical_stress depth (SoilProperties.init density cohesion adeg k0) :=
    mul_le_mul_of_nonneg_right hK hv
  have h2 : 0 ≤ 2 * cohesion
      * Real.sqrt (Real.tan (Real.pi / 4 - adeg * Real.pi / 180 / 2) ^ 2) :=
    mul_nonneg (mul_nonneg (by norm_num) hc) (Real.sqrt_nonneg _)
  have h3 : 0 ≤ 2 * cohesion
      * Real.sqrt (Real.tan (Real.pi / 4 + adeg * Real.pi / 180 / 2) ^ 2) :=
    mul_nonneg (mul_nonneg (by norm_num) hc) (Real.sqrt_nonneg _)
  linarith

/-- Witness for C9 at density 1800, cohesion 5000, friction angle 0°,
k0 = 0.5, depth 10: the active stress is 166580 Pa, the passive
186580 Pa, and the former is at most the latter. -/
theorem C9_passive_ge_active_witness :
    calculate_horizontal_stress
        (calculate_vertical_stress 10 (SoilProperties.init 1800 5000 0 0.5))
        (SoilProperties.init 1800 5000 0 0.5) "Active" = some 166580 ∧
      calculate_horizontal_stress
        (calculate_vertical_stress 10 (SoilProperties.init 1800 5000 0 0.5))
        (SoilProperties.init 1800 5000 0 0.5) "Passive" = some 186580 ∧
      (166580 : ℝ) ≤ 186580 := by
  have hv : calculate_vertical_stress 10 (SoilProperties.init 1800 5000 0 0.5) = 176580 := by
    show (1800 : ℝ) * 9.81 * 10 = 176580
    norm_num
  have hA : calculate_horizontal_stress
      (calculate_vertical_stress 10 (SoilProperties.init 1800 5000 0 0.5))
      (SoilProperties.init 1800 5000 0 0.5) "Active" = some 166580 := by
    rw [horizontal_stress_active, hv]
    norm_num [SoilProperties.init, Real.tan_pi_div_four, Real.sqrt_one]
  have hP : calculate_horizontal_stress
      (calculate_vertical_stress 10 (SoilProperties.init 1800 5000 0 0.5))
      (SoilProperties.init 1800 5000 0 0.5) "Passive" = some 186580 := by
    rw [horizontal_stress_passive, hv]
    norm_num [SoilProperties.init, Real.tan_pi_div_four, Real.sqrt_one]
  exact ⟨hA, hP, C9_passive_ge_active 1800 5000 0 0.5 10 (by norm_num) (by norm_num)
    le_rfl (by norm_num) (by norm_num) 166580 186580 hA hP⟩

/-- Claim C10: two defined runs agreeing on depth, water-table depth
and soil density produce the same vertical stress and the same pore
pressure, whatever their method, other soil fields, TBM fields and
friction coefficient. -/
theorem C10_vertical_and_pore_independent
    (s1 s2 : SoilProperties) (t1 t2 : TBMProperties)
    (d wt fc1 fc2 : ℝ) (m1 m2 : String) (r1 r2 : CalculationResult)
    (hdens : s1.density = s2.density)
    (h1 : calculate_all_stresses s1 t1 d wt fc1 m1 = some r1)
    (h2 : calculate_all_stresses s2 t2 d wt fc2 m2 = some r2) :
    r1.vertical_stress = r2.vertical_stress ∧ r1.pore_pressure = r2.pore_pressure := by
  simp only [calculate_all_stresses, Option.map_eq_some'] at h1 h2
  obtain ⟨a1, _, rfl⟩ := h1
  obtain ⟨a2, _, rfl⟩ := h2
  constructor
  · show calculate_vertical_stress d s1 = calculate_vertical_stress d s2
    rw [calculate_vertical_stress, calculate_vertical_stress, hdens]
  · rfl

/-- Witness for C10: the default run (at-rest, cohesion 5000,
k0 = 0.5, large TBM, μ = 0.3) and the alternative run (passive,
cohesion 0, k0 = 1, unit TBM, μ = 0.5) share depth 10, water table 5
and density 1800, and indeed agree on vertical stress and pore
pressure. -/
theorem C10_vertical_and_pore_independent_witness :
    calculate_all_stresses defaultSoil defaultTBM 10 5 0.3 "At Rest" = some defaultResult ∧
      calculate_all_stresses altSoil altTBM 10 5 0.5 "Passive" = some altResult ∧
      defaultResult.vertical_stress = altResult.vertical_stress ∧
      defaultResult.pore_pressure = altResult.pore_pressure :=
  ⟨default_run_eq, alt_run_eq,
    C10_vertical_and_pore_independent defaultSoil altSoil defaultTBM altTBM 10 5 0.3 0.5
      "At Rest" "Passive" defaultResult altResult rfl default_run_eq alt_run_eq⟩
